import Mathlib

/-!
Verification development for the AD-DL command-line scripts.

We give a shallow embedding of the two scripts
`classifiers/three_d_cnn/subject_level/main.py` and
`patch_level/main_test_multi_cnn.py`. Each script is modelled as a function
from its parsed options (and an environment recording the model registry,
the filesystem and checkpoint contents) to the list of observable side
effects it performs, in order, together with an optional Python error that
aborts the run. Helper functions that live in modules outside the two
source files (`utils/model.py`, patch-level `utils.py`) are modelled from
the specification where a claim needs them; this is flagged in their doc
comments.
-/

namespace ADDL

/-- Observable side effects performed by the scripts, in program order. -/
inductive Event where
  | print (msg : String)
  | setNumThreads (n : Int)
  | writeJson
  | createModel (name : String)
  | applyAEWeights (ckpt outputDir : String) (split difference : Int)
  | applyNetWeights (ckpt outputDir : String) (split : Int)
  | loadData (tsv : String) (diagnoses : List String) (split : Int)
      (nSplits : Option Int) (baseline : Bool) (preprocessing : String)
  | createDataset (inputDir preprocessing : String)
  | greedyLearning (dir : String)
  | writeFile (p : String)
  | train
  | loadSavedModel (dir : String)
  | evalTest
  | loadDataTest (tsv : String) (diagnoses : List String)
  | loadDataValid (tsv : String) (diagnoses : List String) (split : Int) (nSplits : Int)
  | buildPatchDataset (caps : String) (index : Nat)
  | loadPatchModel (nFold : Int) (index : Nat) (selection : String)
  | runPatchTest (index : Nat)
  | writeTsv (outputDir : String) (split : Int) (index : Nat) (mode : String)
  | softVoting (outputDir : String) (split numCnn : Int) (mode : String)
  deriving DecidableEq, Repr

/-- Python exceptions the scripts can raise. -/
inductive PyError where
  | notImplementedError (msg : String)
  | exception (msg : String)
  | zeroDivisionError
  | attributeError (attr : String)
  | nameError (name : String)
  deriving DecidableEq, Repr

/-- Environment of a subject-level run: the classes found by
`inspect.getmembers` in `utils.model`, the filesystem, the structure of
saved checkpoints, and the parts of Python name resolution that are not
fixed by `main.py` itself. -/
structure Env where
  modelClasses : List String
  pathExists : String → Bool
  /-- Whether the checkpoint saved at a path contains a decoder-stage
  parameter group. -/
  checkpointHasDecoderGroup : String → Bool
  /-- Whether a name is a Python builtin (the last resort of `eval` name
  resolution; fixed by the Python runtime, not by this repository). -/
  builtinName : String → Bool
  /-- For a name that `eval` can resolve in the frame of `main`, the error
  raised by calling the resolved object with no arguments, if any (the
  objects bound by the imports live outside the two source files). -/
  boundNameCallError : String → Option PyError

/-- The names `eval` can resolve in the frame of `main` at line 131 of
`subject_level/main.py`, read off the source: the module-level bindings
(imports of lines 1-9, `parser`, `main`, and the `__main__` assignments
`commandline` and `options`) and the locals of `main` assigned before
line 131 (lines 99-128). No architecture class of `utils.model` is
imported by `main.py`, so a registered model name is resolvable only if it
collides with one of these or with a builtin. -/
def mainFrameNames : List String :=
  ["argparse", "torch", "time", "path", "DataLoader",
   "load_model", "greedy_learning", "train", "test", "commandline_to_json",
   "MinMaxNormalization", "MRIDataset", "load_data", "generate_sampler",
   "transfer_from_autoencoder", "apply_pretrained_network_weights",
   "apply_autoencoder_weights", "create_model", "parser", "main",
   "commandline", "options", "model", "inspect", "sys", "choices",
   "name", "obj", "transformations", "total_time"]

/-- Modelled from the spec: `transfer_from_autoencoder` (defined in
`utils/model.py`, which is not part of the two source files) classifies a
saved checkpoint as autoencoder weights exactly when a decoder-stage
parameter group is present. -/
def transfer_from_autoencoder (env : Env) (p : String) : Bool :=
  env.checkpointHasDecoderGroup p

/-- `listInfix needle hay` holds when `needle` occurs contiguously in `hay`. -/
def listInfix (needle : List Char) : List Char → Bool
  | [] => needle.isPrefixOf []
  | c :: cs => needle.isPrefixOf (c :: cs) || listInfix needle cs

/-- Python `needle in hay` on strings: substring containment. -/
def pyIn (needle hay : String) : Bool :=
  listInfix needle.toList hay.toList

/-- Parsed options of the subject-level script, with the argparse defaults.
Field names and defaults follow the parser in
`subject_level/main.py`. Float defaults are represented as rationals. -/
structure SubjectOptions where
  diagnosis_path : String
  output_dir : String
  input_dir : String
  model : String
  preprocessing : String := "linear"
  diagnoses : List String := ["AD", "CN"]
  baseline : Bool := false
  batch_size : Int := 2
  accumulation_steps : Int := 1
  shuffle : Bool := true
  test_sessions : List String := ["ses-M00"]
  num_workers : Int := 1
  minmaxnormalization : Bool := false
  n_splits : Option Int := none
  split : Int := 0
  training_evaluation : String := "whole_set"
  transfer_learning : Option String := none
  transfer_learning_diagnoses : Option (List String) := none
  transfer_learning_epochs : Int := 10
  transfer_learning_rate : ℚ := 1/10000
  features_learning_rate : Option ℚ := none
  visualization : Bool := false
  transfer_difference : Int := 0
  add_sigmoid : Bool := false
  epochs : Int := 20
  learning_rate : ℚ := 1/10000
  patience : Int := 10
  tolerance : ℚ := 1/20
  optimizer : String := "Adam"
  momentum : ℚ := 9/10
  weight_decay : ℚ := 1/10000
  sampler : String := "random"
  gpu : Bool := false
  evaluation_steps : Int := 1
  num_threads : Int := 1

/-- Lines 114-116 of `main.py`: any preprocessing value containing the
substring "mni" is rewritten to "mni" (the assignment mutates
`options.preprocessing`, so every later use sees the new value). -/
def effectivePreprocessing (o : SubjectOptions) : String :=
  if pyIn "mni" o.preprocessing then "mni" else o.preprocessing

/-- Events of lines 114-118: the print after the preprocessing rewrite and
`torch.set_num_threads`. -/
def headerEvents (o : SubjectOptions) : List Event :=
  (if pyIn "mni" o.preprocessing then [Event.print (effectivePreprocessing o)] else [])
    ++ [Event.setNumThreads o.num_threads]

/-- Lines 132-168 of the pretraining block, reached only when line 131
produced an object: the path-exists dispatch between the two weight-apply
helpers, and the fresh-autoencoder branch. -/
def pretrainDispatch (env : Env) (o : SubjectOptions) (pre : String) (tl : String) :
    List Event × Option PyError :=
    let ev0 := [Event.createModel o.model]
    if env.pathExists tl then
      if transfer_from_autoencoder env tl then
        (ev0 ++ [Event.print ("A pretrained autoencoder is loaded at path " ++ tl),
                 Event.applyAEWeights tl o.output_dir o.split o.transfer_difference], none)
      else
        (ev0 ++ [Event.print ("A pretrained model is loaded at path " ++ tl),
                 Event.applyNetWeights tl o.output_dir o.split], none)
    else
      match o.transfer_learning_diagnoses with
      | none => (ev0, some (PyError.exception "Diagnosis labels must be given to train the autoencoder."))
      | some tld =>
        (ev0 ++ [Event.loadData o.diagnosis_path tld o.split o.n_splits o.baseline pre,
                 Event.createDataset o.input_dir pre,
                 Event.createDataset o.input_dir pre,
                 Event.greedyLearning (o.output_dir ++ "/pretraining")], none)

/-- Lines 130-168: the pretraining block. Line 131 is
`model = eval(options.model)()`: `eval` of a bare name resolves it in the
frame of `main` (then builtins) and raises `NameError` when it is unbound;
only on a successful resolution and call does the dispatch of lines
132-168 run. Returns the events performed and the error aborting the
block, if any. -/
def pretrainEvents (env : Env) (o : SubjectOptions) (pre : String) :
    List Event × Option PyError :=
  match o.transfer_learning with
  | none => ([], none)
  | some tl =>
    if o.model ∈ mainFrameNames ∨ env.builtinName o.model = true then
      match env.boundNameCallError o.model with
      | some e => ([], some e)
      | none => pretrainDispatch env o pre tl
    else
      ([], some (PyError.nameError o.model))

/-- Lines 170-239: version file, main data loading, model creation,
training, checkpoint reload, final evaluation and the log file. -/
def mainTail (o : SubjectOptions) (pre : String) : List Event :=
  [Event.writeFile (o.output_dir ++ "/python_version.txt"),
   Event.loadData o.diagnosis_path o.diagnoses o.split o.n_splits o.baseline pre,
   Event.createDataset o.input_dir pre,
   Event.createDataset o.input_dir pre,
   Event.createModel o.model,
   Event.train,
   Event.loadSavedModel (o.output_dir ++ "/best_model_dir/CNN/fold_" ++ toString o.split ++ "/best_loss"),
   Event.evalTest,
   Event.evalTest,
   Event.writeFile (o.output_dir ++ "/log_dir/CNN/fold_" ++ toString o.split ++ "/fold_output.txt")]

/-- The `main` function of the subject-level script (lines 99-239).
The modulo test of line 119 follows Python: a zero divisor raises
`ZeroDivisionError`; for a nonzero divisor, Python's `%` and `Int.emod`
agree on being zero (both vanish exactly on multiples), which is all the
test observes. -/
def subjectMain (env : Env) (o : SubjectOptions) : List Event × Option PyError :=
  if o.model ∈ env.modelClasses then
    if o.accumulation_steps = 0 then
      (headerEvents o, some PyError.zeroDivisionError)
    else if o.evaluation_steps % o.accumulation_steps ≠ 0 ∧ o.evaluation_steps ≠ 1 then
      (headerEvents o,
       some (PyError.exception ("Evaluation steps " ++ toString o.evaluation_steps
         ++ " must be a multiple of accumulation steps " ++ toString o.accumulation_steps)))
    else
      match pretrainEvents env o (effectivePreprocessing o) with
      | (evP, some e) => (headerEvents o ++ evP, some e)
      | (evP, none) =>
        (headerEvents o ++ evP ++ mainTail o (effectivePreprocessing o), none)
  else
    ([], some (PyError.notImplementedError
        ("The model wanted " ++ o.model ++ " has not been implemented in the module model.py")))

/-- Python list formatting of the unknown-argument list (the exact text is
irrelevant to the claims; only which events and errors occur matters). -/
def formatUnknown (args : List String) : String :=
  String.intercalate " " args

/-- The `__main__` block of the subject-level script (lines 242-248):
`commandline_to_json`, a warning print when unknown arguments are present,
then `main` unconditionally. -/
def subjectScript (env : Env) (o : SubjectOptions) (unknown : List String) :
    List Event × Option PyError :=
  let ev1 :=
    if unknown = [] then [Event.writeJson]
    else [Event.writeJson, Event.print ("unknown arguments: " ++ formatUnknown unknown)]
  (ev1 ++ (subjectMain env o).1, (subjectMain env o).2)

/-- Events that load datasets, pretrain, train or evaluate: the "work" the
fail-fast claims say must not happen before a configuration error. -/
def isWorkEvent : Event → Bool
  | Event.loadData _ _ _ _ _ _ => true
  | Event.loadDataTest _ _ => true
  | Event.loadDataValid _ _ _ _ => true
  | Event.createDataset _ _ => true
  | Event.greedyLearning _ => true
  | Event.train => true
  | Event.evalTest => true
  | Event.buildPatchDataset _ _ => true
  | Event.runPatchTest _ => true
  | Event.applyAEWeights _ _ _ _ => true
  | Event.applyNetWeights _ _ _ => true
  | _ => false

/-- Parsed options of the patch-level test script `main_test_multi_cnn.py`,
with the argparse defaults. The fields `diagnoses` and `n_fold` model
attribute lookups that `main` performs on the options namespace: the parser
itself never defines them (it defines `diagnoses_list` and `split`
instead), so an absent attribute is `none` and dereferencing it raises
`AttributeError`. -/
structure PatchOptions where
  caps_directory : String
  diagnosis_tsv_path : String
  output_dir : String
  selection : String := "best_acc"
  patch_size : Int := 50
  patch_stride : Int := 50
  mode : String := "test"
  network : String := "Conv_4_FC_3"
  num_cnn : Int := 36
  diagnoses_list : List String := ["sMCI", "pMCI"]
  split : Int := 0
  batch_size : Int := 32
  num_workers : Int := 8
  gpu : Bool := false
  diagnoses : Option (List String) := none
  n_fold : Option Int := none

/-- The values the patch-level argument parser can populate: exactly its
declared arguments. -/
structure PatchParsedArgs where
  caps_directory : String
  diagnosis_tsv_path : String
  output_dir : String
  selection : String := "best_acc"
  patch_size : Int := 50
  patch_stride : Int := 50
  mode : String := "test"
  network : String := "Conv_4_FC_3"
  num_cnn : Int := 36
  diagnoses_list : List String := ["sMCI", "pMCI"]
  split : Int := 0
  batch_size : Int := 32
  num_workers : Int := 8
  gpu : Bool := false

/-- The options namespace produced by `parser.parse_known_args()`: every
declared argument is set, and no `diagnoses` or `n_fold` attribute exists. -/
def parsePatchOptions (a : PatchParsedArgs) : PatchOptions :=
  { caps_directory := a.caps_directory
    diagnosis_tsv_path := a.diagnosis_tsv_path
    output_dir := a.output_dir
    selection := a.selection
    patch_size := a.patch_size
    patch_stride := a.patch_stride
    mode := a.mode
    network := a.network
    num_cnn := a.num_cnn
    diagnoses_list := a.diagnoses_list
    split := a.split
    batch_size := a.batch_size
    num_workers := a.num_workers
    gpu := a.gpu
    diagnoses := none
    n_fold := none }

/-- Lines 67-71 of `main_test_multi_cnn.py`: the test dataframe. In both
branches `options.diagnoses` is dereferenced first (Python evaluates call
arguments left to right), and in the `valid` branch `options.n_fold`
afterwards. -/
def patchLoadPhase (o : PatchOptions) : List Event × Option PyError :=
  if o.mode = "test" then
    match o.diagnoses with
    | none => ([], some (PyError.attributeError "diagnoses"))
    | some d => ([Event.loadDataTest o.diagnosis_tsv_path d], none)
  else
    match o.diagnoses with
    | none => ([], some (PyError.attributeError "diagnoses"))
    | some d =>
      match o.n_fold with
      | none => ([], some (PyError.attributeError "n_fold"))
      | some nf => ([Event.loadDataValid o.diagnosis_tsv_path d o.split nf], none)

/-- One iteration of the loop of lines 74-100: build the patch dataset for
index `n`, then dereference `options.n_fold` while assembling the
checkpoint path, load the best checkpoint, run inference, and write the
per-sample results for this classifier. -/
def patchIter (o : PatchOptions) (n : Nat) : List Event × Option PyError :=
  match o.n_fold with
  | none => ([Event.buildPatchDataset o.caps_directory n], some (PyError.attributeError "n_fold"))
  | some nf =>
    ([Event.buildPatchDataset o.caps_directory n,
      Event.loadPatchModel nf n o.selection,
      Event.runPatchTest n,
      Event.writeTsv o.output_dir o.split n o.mode], none)

/-- The loop of lines 74-100 over the given classifier indices, stopping at
the first error. -/
def patchLoop (o : PatchOptions) : List Nat → List Event × Option PyError
  | [] => ([], none)
  | n :: ns =>
    match patchIter o n with
    | (ev, some e) => (ev, some e)
    | (ev, none) =>
      match patchLoop o ns with
      | (ev2, r) => (ev ++ ev2, r)

/-- The `main` function of the patch-level test script (lines 62-102):
model creation, data loading, the per-classifier loop, then the
soft-majority voting aggregation once at the end. -/
def patchMain (o : PatchOptions) : List Event × Option PyError :=
  match patchLoadPhase o with
  | (evL, some e) => (Event.createModel o.network :: evL, some e)
  | (evL, none) =>
    match patchLoop o (List.range o.num_cnn.toNat) with
    | (evT, some e) => (Event.createModel o.network :: (evL ++ evT), some e)
    | (evT, none) =>
      (Event.createModel o.network :: (evL ++ evT)
        ++ [Event.softVoting o.output_dir o.split o.num_cnn o.mode], none)

/-- The `__main__` block of the patch-level script (lines 105-110): a hard
failure on unknown arguments, `main` otherwise. -/
def patchScript (o : PatchOptions) (unknown : List String) :
    List Event × Option PyError :=
  if unknown = [] then patchMain o
  else ([], some (PyError.exception ("unknown arguments: " ++ formatUnknown unknown)))

/-- Events that load a saved model checkpoint. -/
def isCheckpointLoad : Event → Bool
  | Event.loadPatchModel _ _ _ => true
  | Event.loadSavedModel _ => true
  | _ => false

/-- Events that persist per-sample classifier result rows. -/
def isResultRowWrite : Event → Bool
  | Event.writeTsv _ _ _ _ => true
  | _ => false

/-- A per-(subject, patch-classifier) prediction row, as persisted by the
per-classifier evaluation. -/
structure PatchPredictionRow where
  subject : String
  vote : String
  confidence : ℚ

/-- Modelled from the spec: the aggregate weight a label receives for a
subject in `multi_cnn_soft_majority_voting` (defined in the patch-level
`utils.py`, which is not part of the two source files): the sum of the
confidences of the classifiers voting for that label. -/
def labelWeight (rows : List PatchPredictionRow) (subj lab : String) : ℚ :=
  ((rows.filter (fun r => r.subject = subj && r.vote = lab)).map
    (fun r => r.confidence)).sum

/-- Modelled from the spec: the soft-majority decision selects the label
with the highest aggregate weight; ties (tie-break unresolved in the spec)
go to the earlier label in the candidate list, a deterministic choice. -/
def softMajorityLabel (rows : List PatchPredictionRow) (subj : String) :
    List String → Option String
  | [] => none
  | l :: ls =>
    match softMajorityLabel rows subj ls with
    | none => some l
    | some b =>
      if labelWeight rows subj b > labelWeight rows subj l then some b else some l

/-- Modelled from the spec: the weight copy of `apply_autoencoder_weights`
(defined in `utils/model.py`, which is not part of the two source files)
copies pretrained weights layer-by-layer into the destination model,
skipping its first `difference` convolutional stages; this returns the
destination stage indices that receive a copy. -/
def copiedStages (numStages : Nat) (difference : Int) : List Nat :=
  (List.range numStages).filter (fun i => difference ≤ (i : Int))

/-- The defaults of the patch-level parser with the three mandatory
positional arguments: the options of a plain
`main_test_multi_cnn.py CAPS TSV OUT` invocation. -/
def patchDefaultArgs : PatchParsedArgs :=
  { caps_directory := "caps", diagnosis_tsv_path := "test.tsv", output_dir := "out" }

/-- The three rows of the voting scenario: one subject, classifiers with
confidences 0.9, 0.4, 0.4 voting A, B, B. (The comparisons involved are
strict on both rationals and IEEE doubles, so exact rationals are
faithful.) -/
def votingScenario : List PatchPredictionRow :=
  [⟨"subj-1", "A", 9/10⟩, ⟨"subj-1", "B", 4/10⟩, ⟨"subj-1", "B", 4/10⟩]

/-- A concrete environment: one model class, every path exists, every
checkpoint holds a decoder group; "Conv5_FC3" is no Python builtin. -/
def envW : Env :=
  { modelClasses := ["Conv5_FC3"]
    pathExists := fun _ => true
    checkpointHasDecoderGroup := fun _ => true
    builtinName := fun _ => false
    boundNameCallError := fun _ => none }

/-- A concrete environment where no path exists. -/
def envNoPath : Env :=
  { modelClasses := ["Conv5_FC3"]
    pathExists := fun _ => false
    checkpointHasDecoderGroup := fun _ => false
    builtinName := fun _ => false
    boundNameCallError := fun _ => none }

/-- Subject-level options: the four positional arguments, parser defaults
elsewhere. -/
def oBase : SubjectOptions :=
  { diagnosis_path := "labels", output_dir := "out", input_dir := "caps",
    model := "Conv5_FC3" }

/-- `oBase` with an evaluation cadence that violates the invariant. -/
def oBadSteps : SubjectOptions :=
  { oBase with evaluation_steps := 3, accumulation_steps := 2 }

/-- `oBase` with an existing pretrained checkpoint path. -/
def oExisting : SubjectOptions :=
  { oBase with transfer_learning := some "pretrained.pth" }

/-- `oBase` with a non-existing transfer path and a pretraining diagnosis
list. -/
def oFreshAE : SubjectOptions :=
  { oBase with transfer_learning := some "newae",
               transfer_learning_diagnoses := some ["AD", "CN"] }

/-- `oBase` with a non-existing transfer path and no pretraining diagnosis
list. -/
def oFreshNoDiag : SubjectOptions :=
  { oBase with transfer_learning := some "newae" }

/-- `oBase` with a model name absent from the registry. -/
def oUnknownModel : SubjectOptions :=
  { oBase with model := "UnknownNet" }

/-- `oBase` with the accepted preprocessing choice "mniskullstrip". -/
def oMniSkull : SubjectOptions :=
  { oBase with preprocessing := "mniskullstrip" }

/-- Patch-level options: the three positional arguments, parser defaults
elsewhere. -/
def poBase : PatchOptions :=
  { caps_directory := "caps", diagnosis_tsv_path := "t.tsv", output_dir := "out" }

/-- Claim C8: on a destination model with 5 convolutional stages and
`transfer_difference = 2`, the transfer-learning weight copy skips
destination stages 0 and 1 and copies into stages 2, 3 and 4 only. -/
theorem transfer_copy_skips_first_two_of_five :
    copiedStages 5 2 = [2, 3, 4]
    ∧ 0 ∉ copiedStages 5 2 ∧ 1 ∉ copiedStages 5 2
    ∧ 2 ∈ copiedStages 5 2 ∧ 3 ∈ copiedStages 5 2 ∧ 4 ∈ copiedStages 5 2 := by
  decide

/-- Claim C7 (counterexample): with confidences 0.9, 0.4, 0.4 voting
A, B, B, the soft-majority decision is not B, contrary to the claim. -/
theorem voting_scenario_not_B :
    softMajorityLabel votingScenario "subj-1" ["A", "B"] ≠ some "B" := by
  simp [softMajorityLabel, labelWeight, votingScenario]
  norm_num

/-- Claim C7 (amended): with confidences 0.9, 0.4, 0.4 voting A, B, B,
the aggregated subject-level prediction is A, the label with the highest
confidence-weighted aggregate vote (0.9 against 0.4 + 0.4 = 0.8). -/
theorem voting_scenario_is_A :
    softMajorityLabel votingScenario "subj-1" ["A", "B"] = some "A" := by
  simp [softMajorityLabel, labelWeight, votingScenario]
  norm_num

/-- Claim C9: for every options namespace the patch-level parser can
produce, `main` stops with an `AttributeError` on the undefined attribute
`diagnoses`, having performed only the model creation: no checkpoint is
loaded and no result row is written. -/
theorem patch_main_attribute_error (a : PatchParsedArgs) :
    patchMain (parsePatchOptions a)
      = ([Event.createModel a.network], some (PyError.attributeError "diagnoses"))
    ∧ (patchMain (parsePatchOptions a)).1.all
        (fun e => !(isCheckpointLoad e) && !(isResultRowWrite e)) = true := by
  have h : patchLoadPhase (parsePatchOptions a)
      = ([], some (PyError.attributeError "diagnoses")) := by
    unfold patchLoadPhase parsePatchOptions
    by_cases hm : a.mode = "test" <;> simp [hm]
  have h2 : patchMain (parsePatchOptions a)
      = ([Event.createModel a.network], some (PyError.attributeError "diagnoses")) := by
    unfold patchMain
    rw [h]
    rfl
  exact ⟨h2, by rw [h2]; rfl⟩

/-- Claim C6: at the failing input given by the parser defaults (a plain
`main_test_multi_cnn.py CAPS TSV OUT` invocation), `main` raises an
`AttributeError` on `diagnoses` right after creating the model: the
per-classifier evaluation loop never runs (no dataset build, checkpoint
load, inference or result write for any of the 36 classifiers) and the
voting aggregation is never invoked. -/
theorem patch_main_defaults_no_loop :
    patchMain (parsePatchOptions patchDefaultArgs)
      = ([Event.createModel "Conv_4_FC_3"], some (PyError.attributeError "diagnoses")) := by
  rfl

/-- The events of lines 114-118 are prints and the thread setting: none of
them load data, pretrain, train or evaluate. -/
theorem headerEvents_no_work (o : SubjectOptions) :
    (headerEvents o).all (fun e => !(isWorkEvent e)) = true := by
  unfold headerEvents
  by_cases hm : pyIn "mni" o.preprocessing = true <;> simp [hm, isWorkEvent]

/-- Claim C1: whenever `evaluation_steps` is not 1 and is not a multiple of
`accumulation_steps`, the subject-level `main` stops with an error and its
trace contains no dataset loading, pretraining, training or evaluation
work. -/
theorem subject_eval_steps_mismatch_fails_fast (env : Env) (o : SubjectOptions)
    (h1 : o.evaluation_steps ≠ 1)
    (h2 : o.evaluation_steps % o.accumulation_steps ≠ 0) :
    (subjectMain env o).2.isSome = true
    ∧ (subjectMain env o).1.all (fun e => !(isWorkEvent e)) = true := by
  unfold subjectMain
  by_cases hmod : o.model ∈ env.modelClasses
  · rw [if_pos hmod]
    by_cases hacc : o.accumulation_steps = 0
    · rw [if_pos hacc]
      exact ⟨rfl, headerEvents_no_work o⟩
    · rw [if_neg hacc, if_pos ⟨h2, h1⟩]
      exact ⟨rfl, headerEvents_no_work o⟩
  · rw [if_neg hmod]
    exact ⟨rfl, rfl⟩

/-- Claim C4: an unknown model name makes the subject-level `main` raise
`NotImplementedError` immediately: the trace is empty (so the check runs
before the evaluation-steps check, before any dataset loading and before
any pretraining or training), whatever the other options are. -/
theorem subject_unknown_model_fails_first (env : Env) (o : SubjectOptions)
    (hm : o.model ∉ env.modelClasses) :
    subjectMain env o
      = ([], some (PyError.notImplementedError
          ("The model wanted " ++ o.model
            ++ " has not been implemented in the module model.py"))) := by
  unfold subjectMain
  rw [if_neg hm]

/-- Claim C2 (code evaluated at the failing input): with the registered
architecture name "Conv5_FC3" and an existing checkpoint path,
`model = eval(options.model)()` at line 131 raises `NameError` —
`main.py` imports no architecture class of `utils.model`, and the name is
neither in the frame of `main` nor a builtin — so the path-exists dispatch
of lines 134-141 never runs: the checkpoint is never classified and
neither autoencoder nor full-network weights are applied. -/
theorem subject_transfer_existing_path_dead :
    subjectMain envW oExisting
      = ([Event.setNumThreads 1], some (PyError.nameError "Conv5_FC3"))
    ∧ Event.applyAEWeights "pretrained.pth" "out" 0 0 ∉ (subjectMain envW oExisting).1
    ∧ Event.applyNetWeights "pretrained.pth" "out" 0 ∉ (subjectMain envW oExisting).1 := by
  decide

/-- Claim C3 (code evaluated at the failing inputs): with the registered
architecture name "Conv5_FC3" and a non-existing transfer path, line 131
raises `NameError` whether the pretraining diagnosis list is present or
absent: the missing-diagnoses configuration error of line 145 is never
raised and the greedy pretraining of line 168 never runs. -/
theorem subject_transfer_fresh_autoencoder_dead :
    subjectMain envNoPath oFreshAE
      = ([Event.setNumThreads 1], some (PyError.nameError "Conv5_FC3"))
    ∧ subjectMain envNoPath oFreshNoDiag
      = ([Event.setNumThreads 1], some (PyError.nameError "Conv5_FC3"))
    ∧ Event.greedyLearning ("out" ++ "/pretraining") ∉ (subjectMain envNoPath oFreshAE).1 := by
  decide

/-- Claim C5: with unrecognized command-line arguments present, the
subject-level script prints a warning and still runs `main` (same events,
same outcome), while the patch-level script raises an exception and
performs nothing of `main`; neither script ignores them silently. -/
theorem scripts_unknown_arguments (env : Env) (o : SubjectOptions) (po : PatchOptions)
    (u : List String) (hu : u ≠ []) :
    (subjectScript env o u).1
        = Event.writeJson
          :: Event.print ("unknown arguments: " ++ formatUnknown u)
          :: (subjectMain env o).1
    ∧ (subjectScript env o u).2 = (subjectMain env o).2
    ∧ patchScript po u
        = ([], some (PyError.exception ("unknown arguments: " ++ formatUnknown u))) := by
  unfold subjectScript patchScript
  rw [if_neg hu, if_neg hu]
  exact ⟨rfl, rfl, rfl⟩

/-- Claim C10: any preprocessing value containing the substring "mni"
(in particular the accepted choice "mniskullstrip") is rewritten to "mni"
before any data loading, and the whole run is identical to one configured
with "mni": the same data paths are selected. -/
theorem subject_mni_preprocessing_rewrite (env : Env) (o : SubjectOptions)
    (h : pyIn "mni" o.preprocessing = true) :
    effectivePreprocessing o = "mni"
    ∧ subjectMain env o = subjectMain env { o with preprocessing := "mni" } := by
  have hm : pyIn "mni" "mni" = true := by decide
  have he : effectivePreprocessing o = "mni" := by
    unfold effectivePreprocessing
    rw [if_pos h]
  have he' : effectivePreprocessing { o with preprocessing := "mni" }
      = effectivePreprocessing o := by
    unfold effectivePreprocessing
    simp [h, hm]
  have hh : headerEvents { o with preprocessing := "mni" } = headerEvents o := by
    unfold headerEvents
    simp [h, hm, he']
  refine ⟨he, ?_⟩
  unfold subjectMain
  rw [hh, he']
  rfl

/-- Witness for claim C1: evaluation steps 3 with accumulation steps 2. -/
theorem subject_eval_steps_mismatch_fails_fast_witness :
    (subjectMain envW oBadSteps).2.isSome = true
    ∧ (subjectMain envW oBadSteps).1.all (fun e => !(isWorkEvent e)) = true :=
  subject_eval_steps_mismatch_fails_fast envW oBadSteps (by decide) (by decide)

/-- Witness for claim C4: the model name "UnknownNet" is not registered. -/
theorem subject_unknown_model_fails_first_witness :
    subjectMain envW oUnknownModel
      = ([], some (PyError.notImplementedError
          ("The model wanted " ++ oUnknownModel.model
            ++ " has not been implemented in the module model.py"))) :=
  subject_unknown_model_fails_first envW oUnknownModel (by decide)

/-- Witness for claim C5: one unknown argument. -/
theorem scripts_unknown_arguments_witness :
    (subjectScript envW oBase ["--fooarg"]).1
        = Event.writeJson
          :: Event.print ("unknown arguments: " ++ formatUnknown ["--fooarg"])
          :: (subjectMain envW oBase).1
    ∧ (subjectScript envW oBase ["--fooarg"]).2 = (subjectMain envW oBase).2
    ∧ patchScript poBase ["--fooarg"]
        = ([], some (PyError.exception ("unknown arguments: " ++ formatUnknown ["--fooarg"]))) :=
  scripts_unknown_arguments envW oBase poBase ["--fooarg"] (by decide)

/-- Witness for claim C9: the parser defaults. -/
theorem patch_main_attribute_error_witness :
    patchMain (parsePatchOptions patchDefaultArgs)
      = ([Event.createModel patchDefaultArgs.network], some (PyError.attributeError "diagnoses"))
    ∧ (patchMain (parsePatchOptions patchDefaultArgs)).1.all
        (fun e => !(isCheckpointLoad e) && !(isResultRowWrite e)) = true :=
  patch_main_attribute_error patchDefaultArgs

/-- Witness for claim C10: the accepted choice "mniskullstrip". -/
theorem subject_mni_preprocessing_rewrite_witness :
    effectivePreprocessing oMniSkull = "mni"
    ∧ subjectMain envW oMniSkull
        = subjectMain envW { oMniSkull with preprocessing := "mni" } :=
  subject_mni_preprocessing_rewrite envW oMniSkull (by decide)

end ADDL
